import Mathlib

/-!
Verification of the MLB walk-up-song scraper (scraper.py): a shallow
embedding of the change-detection reconciler, the persistence writer,
the page-fetch retry loop, the per-song catalog lookup step and the
command-line entry point, together with theorems about them.

Dates and timestamps are modelled as natural numbers; the database table
`mlb_walk_up_songs` is modelled as a list of rows; SQL UPDATE statements
become maps over that list; the external effects (HTTP requests, catalog
search calls, sleeps) are modelled by explicit oracles and traces.
-/

namespace Walkup

/-- A stored row of the `mlb_walk_up_songs` table. -/
structure Row where
  team : String
  player : String
  song_name : String
  song_artist : String
  spotify_uri : Option String
  explicit : Option Bool
  first_seen_date : Nat
  last_updated_date : Nat
  is_current : Bool
  updated_at : Nat
deriving DecidableEq, Repr

/-- One scraped (team, player, song) record, as produced by
`scrape_team_songs` before change classification. -/
structure ScrapedSong where
  team : String
  player : String
  song_name : String
  song_artist : String
  spotify_uri : Option String
  explicit : Option Bool
deriving DecidableEq, Repr

/-- One element of the per-player lists built by `get_existing_songs`. -/
structure ExistingSong where
  song_name : String
  song_artist : String
  spotify_uri : Option String
  explicit : Option Bool
  first_seen_date : Nat
  last_updated_date : Nat
deriving DecidableEq, Repr

/-- The dictionary shape produced for entries classified new or changed by
`detect_song_changes`: the scraped data plus `first_seen_date`,
`last_updated_date` and `is_current`. -/
structure TrackedSong where
  song : ScrapedSong
  first_seen_date : Nat
  last_updated_date : Nat
  is_current : Bool
deriving DecidableEq, Repr

/-- The dictionary shape produced for entries classified unchanged by
`detect_song_changes`: the scraped data plus a new `last_updated_date`
(and no `first_seen_date` override). -/
structure UnchangedSong where
  song : ScrapedSong
  last_updated_date : Nat
deriving DecidableEq, Repr

/-- The `(team, player)` key used by the reconciler. -/
def songKey (s : ScrapedSong) : String × String := (s.team, s.player)

/-- The `(team, player)` key of a stored row. -/
def rowKey (r : Row) : String × String := (r.team, r.player)

/-- The dictionary `existing_songs` of `get_existing_songs`, keyed by
`(team, player)`, modelled as an association list in key insertion order. -/
abbrev ExistingMap := List ((String × String) × List ExistingSong)

/-- Projection of a current row into the per-player list built by
`get_existing_songs`. -/
def toExistingSong (r : Row) : ExistingSong :=
  { song_name := r.song_name
    song_artist := r.song_artist
    spotify_uri := r.spotify_uri
    explicit := r.explicit
    first_seen_date := r.first_seen_date
    last_updated_date := r.last_updated_date }

/-- One step of the dictionary construction in `get_existing_songs`:
create the key with an empty list if absent, then append the song. -/
def addExisting (m : ExistingMap) (k : String × String) (s : ExistingSong) :
    ExistingMap :=
  match m with
  | [] => [(k, [s])]
  | (k2, l) :: rest =>
      if k2 = k then (k2, l ++ [s]) :: rest else (k2, l) :: addExisting rest k s

/-- `get_existing_songs`: group the rows with `is_current = TRUE` by
`(team, player)` into a dictionary of per-player song lists. -/
def get_existing_songs (db : List Row) : ExistingMap :=
  (db.filter (fun r => r.is_current)).foldl
    (fun m r => addExisting m (rowKey r) (toExistingSong r)) []

/-- The `try/except` wrapper of `get_existing_songs`: a failing read of the
current rows is caught and yields the empty dictionary instead of
propagating the error. -/
def get_existing_songs_safe (dbRead : Except String (List Row)) : ExistingMap :=
  match dbRead with
  | Except.ok db => get_existing_songs db
  | Except.error _ => []

/-- The dictionary built for entries classified new or changed:
`first_seen_date = last_updated_date = scrape_date` and `is_current = True`. -/
def trackedEntry (s : ScrapedSong) (scrape_date : Nat) : TrackedSong :=
  { song := s
    first_seen_date := scrape_date
    last_updated_date := scrape_date
    is_current := true }

/-- The dictionary built for entries classified unchanged:
only `last_updated_date` is set to the scrape date. -/
def unchangedEntry (s : ScrapedSong) (scrape_date : Nat) : UnchangedSong :=
  { song := s, last_updated_date := scrape_date }

/-- `detect_song_changes`: walk the scraped entries in order, classifying
each one against the existing-current dictionary as new (key absent),
unchanged (key present and the song name equals one of the existing
current song names) or changed (key present, song name absent), returning
the three lists `(new_songs, changed_songs, unchanged_songs)`. -/
def detect_song_changes (current_songs : List ScrapedSong)
    (existing_songs : ExistingMap) (scrape_date : Nat) :
    List TrackedSong × List TrackedSong × List UnchangedSong :=
  match current_songs with
  | [] => ([], [], [])
  | s :: rest =>
      let prev := detect_song_changes rest existing_songs scrape_date
      match List.lookup (songKey s) existing_songs with
      | none => (trackedEntry s scrape_date :: prev.1, prev.2.1, prev.2.2)
      | some l =>
          if l.any (fun e => e.song_name = s.song_name) then
            (prev.1, prev.2.1, unchangedEntry s scrape_date :: prev.2.2)
          else
            (prev.1, trackedEntry s scrape_date :: prev.2.1, prev.2.2)

/-- The row-level effect of
`UPDATE mlb_walk_up_songs SET is_current = FALSE, updated_at = now
 WHERE team = :team AND player = :player AND is_current = TRUE`. -/
def deactRow (team player : String) (now : Nat) (r : Row) : Row :=
  if r.team = team ∧ r.player = player ∧ r.is_current = true then
    { r with is_current := false, updated_at := now }
  else r

/-- The deactivation UPDATE applied to the whole table. -/
def deactivateCurrent (team player : String) (now : Nat) (db : List Row) :
    List Row :=
  db.map (deactRow team player now)

/-- The row inserted by the INSERT statement for one new or changed entry. -/
def trackedToRow (t : TrackedSong) (now : Nat) : Row :=
  { team := t.song.team
    player := t.song.player
    song_name := t.song.song_name
    song_artist := t.song.song_artist
    spotify_uri := t.song.spotify_uri
    explicit := t.song.explicit
    first_seen_date := t.first_seen_date
    last_updated_date := t.last_updated_date
    is_current := t.is_current
    updated_at := now }

/-- The row-level effect of
`UPDATE mlb_walk_up_songs SET last_updated_date = :lud, updated_at = now
 WHERE team = :team AND player = :player AND song_name = :song_name`. -/
def updRow (u : UnchangedSong) (now : Nat) (r : Row) : Row :=
  if r.team = u.song.team ∧ r.player = u.song.player ∧
      r.song_name = u.song.song_name then
    { r with last_updated_date := u.last_updated_date, updated_at := now }
  else r

/-- The unchanged-entry UPDATE applied to the whole table. -/
def updateUnchanged (u : UnchangedSong) (now : Nat) (db : List Row) :
    List Row :=
  db.map (updRow u now)

/-- `store_songs_with_change_tracking`, as the state transformation of one
committed transaction: first deactivate every current row of each player
appearing in `changed_songs`, then insert all rows of
`new_songs ++ changed_songs`, then run the unchanged-entry updates. -/
def store_songs_with_change_tracking (db : List Row)
    (new_songs changed_songs : List TrackedSong)
    (unchanged_songs : List UnchangedSong) (now : Nat) : List Row :=
  let db1 := changed_songs.foldl
    (fun acc t => deactivateCurrent t.song.team t.song.player now acc) db
  let db2 := db1 ++ (new_songs ++ changed_songs).map (fun t => trackedToRow t now)
  unchanged_songs.foldl (fun acc u => updateUnchanged u now acc) db2

/-- The per-row effect of the sequence of deactivation UPDATEs for the
players of the changed entries. -/
def deactFold (changed : List TrackedSong) (now : Nat) (r : Row) : Row :=
  changed.foldl (fun r2 t => deactRow t.song.team t.song.player now r2) r

/-- The per-row effect of the sequence of unchanged-entry UPDATEs. -/
def updFold (unchanged : List UnchangedSong) (now : Nat) (r : Row) : Row :=
  unchanged.foldl (fun r2 u => updRow u now r2) r

/-- The reconcile-then-commit composition performed by `main`. -/
def reconcile_and_store (db : List Row) (scrape : List ScrapedSong)
    (existing : ExistingMap) (scrape_date now : Nat) : List Row :=
  let out := detect_song_changes scrape existing scrape_date
  store_songs_with_change_tracking db out.1 out.2.1 out.2.2 now

/-- One SQL statement executed by `store_songs_with_change_tracking`. -/
inductive DbStatement where
  | deactivate (team player : String)
  | insertRows (rows : List Row)
  | updateLast (team player song_name : String) (last_updated_date : Nat)
deriving DecidableEq, Repr

/-- The statement trace of one `store_songs_with_change_tracking`
transaction: the per-player deactivation UPDATEs, then a single INSERT of
all rows of `new_songs + changed_songs` (executed only when that list is
non-empty), then the per-entry unchanged UPDATEs. -/
def store_statements (new_songs changed_songs : List TrackedSong)
    (unchanged_songs : List UnchangedSong) (now : Nat) : List DbStatement :=
  (changed_songs.map (fun t => DbStatement.deactivate t.song.team t.song.player)) ++
  (if (new_songs ++ changed_songs) = [] then []
   else [DbStatement.insertRows ((new_songs ++ changed_songs).map
          (fun t => trackedToRow t now))]) ++
  (unchanged_songs.map (fun u =>
    DbStatement.updateLast u.song.team u.song.player u.song.song_name
      u.last_updated_date))

/-- The row counts of the INSERT statements of a statement trace. -/
def insertSizes (stmts : List DbStatement) : List Nat :=
  stmts.filterMap (fun st =>
    match st with
    | DbStatement.insertRows rows => some rows.length
    | _ => none)

/-- The commit attempt of `store_songs_with_change_tracking`: the whole
batch runs as one transaction in a single attempt; the `except` clause
logs and re-raises, so a database failure on that one attempt fails the
run and no further attempt is consulted. -/
def store_commit (attemptFails : Nat → Bool)
    (new_songs changed_songs : List TrackedSong)
    (unchanged_songs : List UnchangedSong) (now : Nat) :
    Except String (List DbStatement) :=
  if attemptFails 0 then Except.error "storage"
  else Except.ok (store_statements new_songs changed_songs unchanged_songs now)

/-- `max_retries` of the request loop in `scrape_team_songs`. -/
def max_retries : Nat := 3

/-- The `timeout=30` argument of each `session.get` call. -/
def requestTimeout : Nat := 30

/-- The observable outcome of the request-retry loop of
`scrape_team_songs`: how many `session.get` calls were made, the timeout
passed to each, the backoff sleeps performed between attempts (in
seconds, in order), and whether a response was obtained. -/
structure FetchResult where
  attempts_made : Nat
  timeouts : List Nat
  sleeps : List Nat
  ok : Bool
deriving DecidableEq, Repr

/-- The body of `for attempt in range(max_retries)` in
`scrape_team_songs`: issue `session.get(url, timeout=30)`; on success
break; on failure re-raise when this was the last attempt, otherwise
sleep `2 ** attempt` seconds and continue. `succeeds n` tells whether the
request of the 0-based attempt `n` succeeds. -/
def fetchGo (succeeds : Nat → Bool) (attempt remaining : Nat)
    (timeouts sleeps : List Nat) : FetchResult :=
  match remaining with
  | 0 => { attempts_made := attempt, timeouts := timeouts, sleeps := sleeps,
           ok := false }
  | r + 1 =>
      let ts := timeouts ++ [requestTimeout]
      if succeeds attempt then
        { attempts_made := attempt + 1, timeouts := ts, sleeps := sleeps,
          ok := true }
      else if r = 0 then
        { attempts_made := attempt + 1, timeouts := ts, sleeps := sleeps,
          ok := false }
      else
        fetchGo succeeds (attempt + 1) r ts (sleeps ++ [2 ^ attempt])

/-- The whole request-retry loop of `scrape_team_songs`. -/
def fetch_with_retries (succeeds : Nat → Bool) : FetchResult :=
  fetchGo succeeds 0 max_retries [] []

/-- `scrape_team_songs` at fetch granularity: when the retry loop
re-raises, the outer `except` logs and returns the empty list; otherwise
the parsed songs of the page are returned. -/
def scrape_team_songs_model (succeeds : Nat → Bool)
    (parsed : List ScrapedSong) : List ScrapedSong :=
  if (fetch_with_retries succeeds).ok then parsed else []

/-- The per-team loop of `scrape_all_teams`: each team is processed in
order and its songs extend the accumulated list; a failed team simply
contributes nothing. -/
def scrape_all_teams_model
    (teams : List ((Nat → Bool) × List ScrapedSong)) : List ScrapedSong :=
  teams.foldl (fun acc t => acc ++ scrape_team_songs_model t.1 t.2) []

/-- Outcome of one `sp.search(q=..., type="track", limit=1)` call. -/
inductive SearchOutcome where
  | found (uri : String) (explicit_flag : Bool)
  | noItems
  | apiError
deriving DecidableEq, Repr

/-- The observable result of the per-song catalog lookup step of
`scrape_team_songs`. -/
structure LookupResult where
  record : ScrapedSong
  sleeps_ms : List Nat
  api_called : Bool
deriving DecidableEq, Repr

/-- The per-song catalog lookup of `scrape_team_songs`: when the client is
present and both names are non-empty, search the catalog inside a
`try` block whose last statement is `time.sleep(0.2)`; an exception is
caught and leaves `spotify_data = None` (skipping the sleep); the record
is appended in every case, with `None` fields when there is no match. -/
def spotify_lookup (sp : Bool) (outcome : SearchOutcome)
    (team player song_name artist_name : String) : LookupResult :=
  if sp = true ∧ song_name ≠ "" ∧ artist_name ≠ "" then
    match outcome with
    | SearchOutcome.found uri e =>
        { record := { team := team, player := player, song_name := song_name,
                      song_artist := artist_name, spotify_uri := some uri,
                      explicit := some e },
          sleeps_ms := [200], api_called := true }
    | SearchOutcome.noItems =>
        { record := { team := team, player := player, song_name := song_name,
                      song_artist := artist_name, spotify_uri := none,
                      explicit := none },
          sleeps_ms := [200], api_called := true }
    | SearchOutcome.apiError =>
        { record := { team := team, player := player, song_name := song_name,
                      song_artist := artist_name, spotify_uri := none,
                      explicit := none },
          sleeps_ms := [], api_called := true }
  else
    { record := { team := team, player := player, song_name := song_name,
                  song_artist := artist_name, spotify_uri := none,
                  explicit := none },
      sleeps_ms := [], api_called := false }

/-- The result of one run of `main` on its success path. -/
structure MainResult where
  stored_db : List Row
  statements : List DbStatement
  verbose : Bool
deriving DecidableEq, Repr

/-- `main` of scraper.py: usage check `len(sys.argv) < 3`, the flag scan
`VERBOSE_MODE = "--verbose" in sys.argv`, then unconditionally
`get_existing_songs`, `detect_song_changes` and
`store_songs_with_change_tracking`; no other flag is consulted and no
branch skips the storage writes. -/
def main_model (argv : List String) (db : List Row)
    (scraped : List ScrapedSong) (scrape_date now : Nat) :
    Option MainResult :=
  if argv.length < 3 then none
  else
    let existing := get_existing_songs db
    let out := detect_song_changes scraped existing scrape_date
    some { stored_db := store_songs_with_change_tracking db out.1 out.2.1 out.2.2 now
           statements := store_statements out.1 out.2.1 out.2.2 now
           verbose := argv.contains "--verbose" }

/-- Example table row: player p of team t with current song A. -/
def exRowA : Row :=
  { team := "t", player := "p", song_name := "A", song_artist := "ar",
    spotify_uri := none, explicit := none, first_seen_date := 0,
    last_updated_date := 0, is_current := true, updated_at := 0 }

/-- Example table row: the same player with a second current song B. -/
def exRowB : Row :=
  { team := "t", player := "p", song_name := "B", song_artist := "ar",
    spotify_uri := none, explicit := none, first_seen_date := 0,
    last_updated_date := 0, is_current := true, updated_at := 0 }

/-- Example scraped entry: song A again for the same player. -/
def exSongA : ScrapedSong :=
  { team := "t", player := "p", song_name := "A", song_artist := "ar",
    spotify_uri := none, explicit := none }

/-- Example scraped entry: a new song C for the same player. -/
def exSongC : ScrapedSong :=
  { team := "t", player := "p", song_name := "C", song_artist := "ar",
    spotify_uri := none, explicit := none }

/-- Example reconciliation batch of 150 new entries. -/
def bigNewSongs : List TrackedSong := List.replicate 150 (trackedEntry exSongA 0)

/-! ## Helper lemmas about `detect_song_changes` -/

theorem detect_cons_none (s : ScrapedSong) (rest : List ScrapedSong)
    (existing : ExistingMap) (d : Nat)
    (h : List.lookup (songKey s) existing = none) :
    detect_song_changes (s :: rest) existing d =
      (trackedEntry s d :: (detect_song_changes rest existing d).1,
       (detect_song_changes rest existing d).2.1,
       (detect_song_changes rest existing d).2.2) := by
  simp only [detect_song_changes, h]

theorem detect_cons_unchanged (s : ScrapedSong) (rest : List ScrapedSong)
    (existing : ExistingMap) (d : Nat) (l : List ExistingSong)
    (h : List.lookup (songKey s) existing = some l)
    (hany : l.any (fun x => x.song_name = s.song_name) = true) :
    detect_song_changes (s :: rest) existing d =
      ((detect_song_changes rest existing d).1,
       (detect_song_changes rest existing d).2.1,
       unchangedEntry s d :: (detect_song_changes rest existing d).2.2) := by
  simp only [detect_song_changes, h, hany, if_true]

theorem detect_cons_changed (s : ScrapedSong) (rest : List ScrapedSong)
    (existing : ExistingMap) (d : Nat) (l : List ExistingSong)
    (h : List.lookup (songKey s) existing = some l)
    (hany : l.any (fun x => x.song_name = s.song_name) = false) :
    detect_song_changes (s :: rest) existing d =
      ((detect_song_changes rest existing d).1,
       trackedEntry s d :: (detect_song_changes rest existing d).2.1,
       (detect_song_changes rest existing d).2.2) := by
  simp only [detect_song_changes, h, hany, Bool.false_eq_true, if_false]

theorem detect_new_spec (existing : ExistingMap) (d : Nat) :
    ∀ (cs : List ScrapedSong) (e : TrackedSong),
      e ∈ (detect_song_changes cs existing d).1 →
      List.lookup (songKey e.song) existing = none ∧ e = trackedEntry e.song d := by
  intro cs
  induction cs with
  | nil => intro e he; simp [detect_song_changes] at he
  | cons s rest ih =>
      intro e he
      rcases hl : List.lookup (songKey s) existing with _ | l
      · rw [detect_cons_none s rest existing d hl] at he
        simp only [List.mem_cons] at he
        rcases he with he | he
        · subst he; exact ⟨hl, rfl⟩
        · exact ih e he
      · rcases hany : l.any (fun x => x.song_name = s.song_name) with _ | _
        · rw [detect_cons_changed s rest existing d l hl hany] at he
          exact ih e he
        · rw [detect_cons_unchanged s rest existing d l hl hany] at he
          exact ih e he

theorem detect_changed_spec (existing : ExistingMap) (d : Nat) :
    ∀ (cs : List ScrapedSong) (e : TrackedSong),
      e ∈ (detect_song_changes cs existing d).2.1 →
      (∃ l, List.lookup (songKey e.song) existing = some l ∧
        l.any (fun x => x.song_name = e.song.song_name) = false) ∧
      e = trackedEntry e.song d := by
  intro cs
  induction cs with
  | nil => intro e he; simp [detect_song_changes] at he
  | cons s rest ih =>
      intro e he
      rcases hl : List.lookup (songKey s) existing with _ | l
      · rw [detect_cons_none s rest existing d hl] at he
        exact ih e he
      · rcases hany : l.any (fun x => x.song_name = s.song_name) with _ | _
        · rw [detect_cons_changed s rest existing d l hl hany] at he
          simp only [List.mem_cons] at he
          rcases he with he | he
          · subst he
            exact ⟨⟨l, hl, hany⟩, rfl⟩
          · exact ih e he
        · rw [detect_cons_unchanged s rest existing d l hl hany] at he
          exact ih e he

theorem detect_unchanged_spec (existing : ExistingMap) (d : Nat) :
    ∀ (cs : List ScrapedSong) (e : UnchangedSong),
      e ∈ (detect_song_changes cs existing d).2.2 →
      (∃ l, List.lookup (songKey e.song) existing = some l ∧
        l.any (fun x => x.song_name = e.song.song_name) = true) ∧
      e = unchangedEntry e.song d := by
  intro cs
  induction cs with
  | nil => intro e he; simp [detect_song_changes] at he
  | cons s rest ih =>
      intro e he
      rcases hl : List.lookup (songKey s) existing with _ | l
      · rw [detect_cons_none s rest existing d hl] at he
        exact ih e he
      · rcases hany : l.any (fun x => x.song_name = s.song_name) with _ | _
        · rw [detect_cons_changed s rest existing d l hl hany] at he
          exact ih e he
        · rw [detect_cons_unchanged s rest existing d l hl hany] at he
          simp only [List.mem_cons] at he
          rcases he with he | he
          · subst he
            exact ⟨⟨l, hl, hany⟩, rfl⟩
          · exact ih e he

theorem mem_new_detect (existing : ExistingMap) (d : Nat) :
    ∀ (cs : List ScrapedSong) (s : ScrapedSong), s ∈ cs →
      List.lookup (songKey s) existing = none →
      trackedEntry s d ∈ (detect_song_changes cs existing d).1 := by
  intro cs
  induction cs with
  | nil => intro s hs; simp at hs
  | cons e rest ih =>
      intro s hs hnone
      rcases List.mem_cons.mp hs with hs | hs
      · subst hs
        rw [detect_cons_none s rest existing d hnone]
        exact List.mem_cons_self _ _
      · rcases hl : List.lookup (songKey e) existing with _ | l
        · rw [detect_cons_none e rest existing d hl]
          exact List.mem_cons_of_mem _ (ih s hs hnone)
        · rcases hany : l.any (fun x => x.song_name = e.song_name) with _ | _
          · rw [detect_cons_changed e rest existing d l hl hany]
            exact ih s hs hnone
          · rw [detect_cons_unchanged e rest existing d l hl hany]
            exact ih s hs hnone

theorem mem_changed_detect (existing : ExistingMap) (d : Nat) :
    ∀ (cs : List ScrapedSong) (s : ScrapedSong) (l : List ExistingSong),
      s ∈ cs →
      List.lookup (songKey s) existing = some l →
      l.any (fun x => x.song_name = s.song_name) = false →
      trackedEntry s d ∈ (detect_song_changes cs existing d).2.1 := by
  intro cs
  induction cs with
  | nil => intro s l hs; simp at hs
  | cons e rest ih =>
      intro s l hs hsome hany
      rcases List.mem_cons.mp hs with hs | hs
      · subst hs
        rw [detect_cons_changed s rest existing d l hsome hany]
        exact List.mem_cons_self _ _
      · rcases hl : List.lookup (songKey e) existing with _ | l2
        · rw [detect_cons_none e rest existing d hl]
          exact ih s l hs hsome hany
        · rcases hany2 : l2.any (fun x => x.song_name = e.song_name) with _ | _
          · rw [detect_cons_changed e rest existing d l2 hl hany2]
            exact List.mem_cons_of_mem _ (ih s l hs hsome hany)
          · rw [detect_cons_unchanged e rest existing d l2 hl hany2]
            exact ih s l hs hsome hany

theorem mem_unchanged_detect (existing : ExistingMap) (d : Nat) :
    ∀ (cs : List ScrapedSong) (s : ScrapedSong) (l : List ExistingSong),
      s ∈ cs →
      List.lookup (songKey s) existing = some l →
      l.any (fun x => x.song_name = s.song_name) = true →
      unchangedEntry s d ∈ (detect_song_changes cs existing d).2.2 := by
  intro cs
  induction cs with
  | nil => intro s l hs; simp at hs
  | cons e rest ih =>
      intro s l hs hsome hany
      rcases List.mem_cons.mp hs with hs | hs
      · subst hs
        rw [detect_cons_unchanged s rest existing d l hsome hany]
        exact List.mem_cons_self _ _
      · rcases hl : List.lookup (songKey e) existing with _ | l2
        · rw [detect_cons_none e rest existing d hl]
          exact ih s l hs hsome hany
        · rcases hany2 : l2.any (fun x => x.song_name = e.song_name) with _ | _
          · rw [detect_cons_changed e rest existing d l2 hl hany2]
            exact ih s l hs hsome hany
          · rw [detect_cons_unchanged e rest existing d l2 hl hany2]
            exact List.mem_cons_of_mem _ (ih s l hs hsome hany)

theorem trackedEntry_song (s : ScrapedSong) (d : Nat) :
    (trackedEntry s d).song = s := rfl

theorem unchangedEntry_song (s : ScrapedSong) (d : Nat) :
    (unchangedEntry s d).song = s := rfl

theorem detect_perm (existing : ExistingMap) (d : Nat) :
    ∀ (cs : List ScrapedSong),
      ((detect_song_changes cs existing d).1.map TrackedSong.song ++
       ((detect_song_changes cs existing d).2.1.map TrackedSong.song ++
        (detect_song_changes cs existing d).2.2.map UnchangedSong.song)).Perm cs := by
  intro cs
  induction cs with
  | nil => simp [detect_song_changes]
  | cons s rest ih =>
      rcases hl : List.lookup (songKey s) existing with _ | l
      · rw [detect_cons_none s rest existing d hl]
        simp only [List.map_cons, trackedEntry_song, List.cons_append]
        exact ih.cons s
      · rcases hany : l.any (fun x => x.song_name = s.song_name) with _ | _
        · rw [detect_cons_changed s rest existing d l hl hany]
          simp only [List.map_cons, trackedEntry_song, List.cons_append]
          refine List.Perm.trans List.perm_middle ?_
          exact ih.cons s
        · rw [detect_cons_unchanged s rest existing d l hl hany]
          simp only [List.map_cons, unchangedEntry_song]
          rw [← List.append_assoc]
          refine List.Perm.trans List.perm_middle ?_
          rw [List.append_assoc]
          exact ih.cons s

/-! ## Frame lemmas for the persistence writer -/

theorem deactRow_frame (team player : String) (now : Nat) (r : Row) :
    (deactRow team player now r).team = r.team ∧
    (deactRow team player now r).player = r.player ∧
    (deactRow team player now r).song_name = r.song_name ∧
    (deactRow team player now r).song_artist = r.song_artist ∧
    (deactRow team player now r).spotify_uri = r.spotify_uri ∧
    (deactRow team player now r).explicit = r.explicit ∧
    (deactRow team player now r).first_seen_date = r.first_seen_date ∧
    (deactRow team player now r).last_updated_date = r.last_updated_date := by
  unfold deactRow
  split <;> simp

theorem updRow_frame (u : UnchangedSong) (now : Nat) (r : Row) :
    (updRow u now r).team = r.team ∧
    (updRow u now r).player = r.player ∧
    (updRow u now r).song_name = r.song_name ∧
    (updRow u now r).song_artist = r.song_artist ∧
    (updRow u now r).spotify_uri = r.spotify_uri ∧
    (updRow u now r).explicit = r.explicit ∧
    (updRow u now r).first_seen_date = r.first_seen_date ∧
    (updRow u now r).is_current = r.is_current := by
  unfold updRow
  split <;> simp

theorem deactFold_frame (now : Nat) :
    ∀ (c : List TrackedSong) (r : Row),
      (deactFold c now r).team = r.team ∧
      (deactFold c now r).player = r.player ∧
      (deactFold c now r).song_name = r.song_name ∧
      (deactFold c now r).song_artist = r.song_artist ∧
      (deactFold c now r).spotify_uri = r.spotify_uri ∧
      (deactFold c now r).explicit = r.explicit ∧
      (deactFold c now r).first_seen_date = r.first_seen_date ∧
      (deactFold c now r).last_updated_date = r.last_updated_date := by
  intro c
  induction c with
  | nil => intro r; exact ⟨rfl, rfl, rfl, rfl, rfl, rfl, rfl, rfl⟩
  | cons t ts ih =>
      intro r
      obtain ⟨a1, a2, a3, a4, a5, a6, a7, a8⟩ :=
        deactRow_frame t.song.team t.song.player now r
      obtain ⟨b1, b2, b3, b4, b5, b6, b7, b8⟩ :=
        ih (deactRow t.song.team t.song.player now r)
      exact ⟨b1.trans a1, b2.trans a2, b3.trans a3, b4.trans a4,
             b5.trans a5, b6.trans a6, b7.trans a7, b8.trans a8⟩

theorem updFold_frame (now : Nat) :
    ∀ (us : List UnchangedSong) (r : Row),
      (updFold us now r).team = r.team ∧
      (updFold us now r).player = r.player ∧
      (updFold us now r).song_name = r.song_name ∧
      (updFold us now r).song_artist = r.song_artist ∧
      (updFold us now r).spotify_uri = r.spotify_uri ∧
      (updFold us now r).explicit = r.explicit ∧
      (updFold us now r).first_seen_date = r.first_seen_date ∧
      (updFold us now r).is_current = r.is_current := by
  intro us
  induction us with
  | nil => intro r; exact ⟨rfl, rfl, rfl, rfl, rfl, rfl, rfl, rfl⟩
  | cons u us ih =>
      intro r
      obtain ⟨a1, a2, a3, a4, a5, a6, a7, a8⟩ := updRow_frame u now r
      obtain ⟨b1, b2, b3, b4, b5, b6, b7, b8⟩ := ih (updRow u now r)
      exact ⟨b1.trans a1, b2.trans a2, b3.trans a3, b4.trans a4,
             b5.trans a5, b6.trans a6, b7.trans a7, b8.trans a8⟩

theorem foldl_map_rows {α : Type} (g : α → Row → Row) :
    ∀ (l : List α) (db : List Row),
      l.foldl (fun acc a => acc.map (g a)) db =
        db.map (fun r => l.foldl (fun r2 a => g a r2) r) := by
  intro l
  induction l with
  | nil => intro db; simp
  | cons a l ih =>
      intro db
      show l.foldl (fun acc a => acc.map (g a)) (db.map (g a)) = _
      rw [ih (db.map (g a)), List.map_map]
      rfl

/-- The committed table decomposes as the per-row transformed old table
followed by the transformed freshly inserted rows. -/
theorem store_eq_map (db : List Row) (n c : List TrackedSong)
    (u : List UnchangedSong) (now : Nat) :
    store_songs_with_change_tracking db n c u now =
      db.map (fun r => updFold u now (deactFold c now r)) ++
      ((n ++ c).map (fun t => updFold u now (trackedToRow t now))) := by
  unfold store_songs_with_change_tracking deactivateCurrent updateUnchanged
  rw [foldl_map_rows (fun t r => deactRow t.song.team t.song.player now r) c db]
  rw [foldl_map_rows (fun u2 r => updRow u2 now r) u]
  rw [List.map_append, List.map_map, List.map_map]
  rfl

theorem deactRow_not_key (team player : String) (now : Nat) (r : Row)
    (h : (r.team, r.player) ≠ (team, player)) :
    deactRow team player now r = r := by
  unfold deactRow
  rw [if_neg]
  intro hc
  exact h (by rw [hc.1, hc.2.1])

theorem deactRow_is_current_false_of_key (team player : String) (now : Nat)
    (r : Row) (h : r.team = team ∧ r.player = player) :
    (deactRow team player now r).is_current = false := by
  unfold deactRow
  rcases hc : r.is_current with _ | _
  · rw [if_neg]
    · exact hc
    · intro hcond
      exact Bool.false_ne_true hcond.2.2
  · rw [if_pos ⟨h.1, h.2, rfl⟩]

theorem deactFold_not_mem (now : Nat) :
    ∀ (c : List TrackedSong) (r : Row),
      (r.team, r.player) ∉ c.map (fun t => (t.song.team, t.song.player)) →
      deactFold c now r = r := by
  intro c
  induction c with
  | nil => intro r _; rfl
  | cons t ts ih =>
      intro r h
      simp only [List.map_cons, List.mem_cons, not_or] at h
      have hstep : deactRow t.song.team t.song.player now r = r :=
        deactRow_not_key _ _ now r h.1
      show deactFold ts now (deactRow t.song.team t.song.player now r) = r
      rw [hstep]
      exact ih r h.2

theorem deactFold_false (now : Nat) :
    ∀ (c : List TrackedSong) (r : Row), r.is_current = false →
      (deactFold c now r).is_current = false := by
  intro c
  induction c with
  | nil => intro r h; exact h
  | cons t ts ih =>
      intro r h
      have hstep : deactRow t.song.team t.song.player now r = r := by
        unfold deactRow
        rw [if_neg]
        intro hcond
        rw [h] at hcond
        exact Bool.false_ne_true hcond.2.2
      show (deactFold ts now (deactRow t.song.team t.song.player now r)).is_current = false
      rw [hstep]
      exact ih r h

theorem deactFold_mem_false (now : Nat) :
    ∀ (c : List TrackedSong) (r : Row),
      (r.team, r.player) ∈ c.map (fun t => (t.song.team, t.song.player)) →
      (deactFold c now r).is_current = false := by
  intro c
  induction c with
  | nil => intro r h; simp at h
  | cons t ts ih =>
      intro r h
      simp only [List.map_cons, List.mem_cons] at h
      show (deactFold ts now (deactRow t.song.team t.song.player now r)).is_current = false
      rcases h with h | h
      · have hcomp : r.team = t.song.team ∧ r.player = t.song.player :=
          ⟨congrArg Prod.fst h, congrArg Prod.snd h⟩
        exact deactFold_false now ts _
          (deactRow_is_current_false_of_key _ _ now r hcomp)
      · obtain ⟨a1, a2, _⟩ := deactRow_frame t.song.team t.song.player now r
        exact ih _ (by rw [a1, a2]; exact h)

theorem updRow_no_match (u : UnchangedSong) (now : Nat) (r : Row)
    (h : ¬(r.team = u.song.team ∧ r.player = u.song.player ∧
           r.song_name = u.song.song_name)) :
    updRow u now r = r := by
  unfold updRow
  exact if_neg h

theorem updFold_no_match (now : Nat) :
    ∀ (us : List UnchangedSong) (r : Row),
      (∀ u ∈ us, ¬(r.team = u.song.team ∧ r.player = u.song.player ∧
                   r.song_name = u.song.song_name)) →
      updFold us now r = r := by
  intro us
  induction us with
  | nil => intro r _; rfl
  | cons u us ih =>
      intro r h
      have hstep : updRow u now r = r :=
        updRow_no_match u now r (h u (List.mem_cons_self _ _))
      show updFold us now (updRow u now r) = r
      rw [hstep]
      exact ih r (fun v hv => h v (List.mem_cons_of_mem _ hv))

theorem updFold_match (now d : Nat) :
    ∀ (us : List UnchangedSong) (r : Row),
      (∀ v ∈ us, v.last_updated_date = d) →
      (∃ v ∈ us, r.team = v.song.team ∧ r.player = v.song.player ∧
                 r.song_name = v.song.song_name) →
      (updFold us now r).last_updated_date = d ∧
      (updFold us now r).updated_at = now := by
  intro us
  induction us with
  | nil => intro r _ hm; simp at hm
  | cons u us ih =>
      intro r hall hm
      show (updFold us now (updRow u now r)).last_updated_date = d ∧
           (updFold us now (updRow u now r)).updated_at = now
      obtain ⟨a1, a2, a3, _⟩ := updRow_frame u now r
      by_cases hrest : ∃ v ∈ us, r.team = v.song.team ∧ r.player = v.song.player ∧
          r.song_name = v.song.song_name
      · refine ih (updRow u now r) (fun v hv => hall v (List.mem_cons_of_mem _ hv)) ?_
        obtain ⟨v, hv, e1, e2, e3⟩ := hrest
        exact ⟨v, hv, a1.trans e1, a2.trans e2, a3.trans e3⟩
      · obtain ⟨v, hv, hvm⟩ := hm
        rcases List.mem_cons.mp hv with hv | hv
        · subst hv
          have hstep : updRow v now r =
              { r with last_updated_date := v.last_updated_date, updated_at := now } := by
            unfold updRow
            exact if_pos hvm
          have hrest2 : updFold us now (updRow v now r) = updRow v now r := by
            refine updFold_no_match now us _ (fun w hw hmw => hrest ?_)
            obtain ⟨c1, c2, c3, _⟩ := updRow_frame v now r
            exact ⟨w, hw, c1.symm.trans hmw.1, c2.symm.trans hmw.2.1,
                   c3.symm.trans hmw.2.2⟩
          rw [hrest2, hstep]
          exact ⟨hall v (List.mem_cons_self _ _), rfl⟩
        · exact absurd ⟨v, hv, hvm⟩ hrest

/-! ## Helper lemmas for the remaining components -/

theorem scrape_all_foldl :
    ∀ (teams : List ((Nat → Bool) × List ScrapedSong)) (acc : List ScrapedSong),
      teams.foldl (fun a t => a ++ scrape_team_songs_model t.1 t.2) acc =
        acc ++ teams.foldl (fun a t => a ++ scrape_team_songs_model t.1 t.2) [] := by
  intro teams
  induction teams with
  | nil => intro acc; simp
  | cons t ts ih =>
      intro acc
      show ts.foldl _ (acc ++ scrape_team_songs_model t.1 t.2) = _
      rw [ih (acc ++ scrape_team_songs_model t.1 t.2), List.append_assoc]
      have h2 : ts.foldl (fun a t => a ++ scrape_team_songs_model t.1 t.2)
          ([] ++ scrape_team_songs_model t.1 t.2) =
          ([] ++ scrape_team_songs_model t.1 t.2) ++
            ts.foldl (fun a t => a ++ scrape_team_songs_model t.1 t.2) [] :=
        ih _
      simp only [List.nil_append] at h2
      show _ = acc ++ ts.foldl _ ([] ++ scrape_team_songs_model t.1 t.2)
      simp only [List.nil_append]
      rw [h2]

theorem insertSizes_map_deactivate (c : List TrackedSong) :
    insertSizes (c.map (fun t => DbStatement.deactivate t.song.team t.song.player)) = [] := by
  induction c with
  | nil => rfl
  | cons t ts ih => simp only [List.map_cons, insertSizes, List.filterMap] at ih ⊢; exact ih

theorem insertSizes_map_update (us : List UnchangedSong) :
    insertSizes (us.map (fun u =>
      DbStatement.updateLast u.song.team u.song.player u.song.song_name
        u.last_updated_date)) = [] := by
  induction us with
  | nil => rfl
  | cons u us ih => simp only [List.map_cons, insertSizes, List.filterMap] at ih ⊢; exact ih

theorem detect_empty_map (d : Nat) :
    ∀ (cs : List ScrapedSong),
      detect_song_changes cs [] d = (cs.map (fun s => trackedEntry s d), [], []) := by
  intro cs
  induction cs with
  | nil => rfl
  | cons s rest ih =>
      rw [detect_cons_none s rest [] d rfl, ih]
      rfl

/-! ## Claim theorems -/

/-- Claim C2 (confirmed): the reconciler classifies a scraped entry as new
(with `first_seen_date = last_updated_date = scrape_date` and
`is_current = true`) when its `(team, player)` key has no existing current
entries, as unchanged (entry carrying `last_updated_date = scrape_date`
and no `first_seen_date` override, so the stored first-seen date is kept)
when its song name is string-equal to one of the existing current song
names of that player, and as changed (again with both dates set to the
scrape date and `is_current = true`) otherwise. -/
theorem detect_song_changes_classification (cs : List ScrapedSong)
    (existing : ExistingMap) (d : Nat) (s : ScrapedSong) (hs : s ∈ cs) :
    (List.lookup (songKey s) existing = none →
      trackedEntry s d ∈ (detect_song_changes cs existing d).1) ∧
    (∀ l : List ExistingSong, List.lookup (songKey s) existing = some l →
      (l.any (fun x => x.song_name = s.song_name) = true →
        unchangedEntry s d ∈ (detect_song_changes cs existing d).2.2) ∧
      (l.any (fun x => x.song_name = s.song_name) = false →
        trackedEntry s d ∈ (detect_song_changes cs existing d).2.1)) ∧
    (∀ (u : UnchangedSong) (now : Nat) (r : Row),
      (updRow u now r).first_seen_date = r.first_seen_date) :=
  ⟨fun h => mem_new_detect existing d cs s hs h,
   fun l hl =>
     ⟨fun hany => mem_unchanged_detect existing d cs s l hs hl hany,
      fun hany => mem_changed_detect existing d cs s l hs hl hany⟩,
   fun u now r => (updRow_frame u now r).2.2.2.2.2.2.1⟩

/-- Witness for C2: on a one-element scrape with an empty existing map the
entry is classified new with both dates set to the scrape date and
`is_current = true`. -/
theorem detect_song_changes_classification_witness :
    trackedEntry (ScrapedSong.mk "t" "p" "A" "ar" none none) 7 ∈
      (detect_song_changes [ScrapedSong.mk "t" "p" "A" "ar" none none] [] 7).1 :=
  (detect_song_changes_classification
    [ScrapedSong.mk "t" "p" "A" "ar" none none] [] 7
    (ScrapedSong.mk "t" "p" "A" "ar" none none)
    (List.mem_cons_self _ _)).1 rfl

/-- Claim C3 (confirmed): the three output lists of the reconciler form a
partition of the scraped input: their underlying scraped entries are a
permutation of the input list, and no scraped entry value can occur both
in two different output lists. -/
theorem detect_song_changes_partition (cs : List ScrapedSong)
    (existing : ExistingMap) (d : Nat) :
    ((detect_song_changes cs existing d).1.map TrackedSong.song ++
     ((detect_song_changes cs existing d).2.1.map TrackedSong.song ++
      (detect_song_changes cs existing d).2.2.map UnchangedSong.song)).Perm cs ∧
    (∀ s : ScrapedSong,
      ¬(s ∈ (detect_song_changes cs existing d).1.map TrackedSong.song ∧
        s ∈ (detect_song_changes cs existing d).2.1.map TrackedSong.song)) ∧
    (∀ s : ScrapedSong,
      ¬(s ∈ (detect_song_changes cs existing d).1.map TrackedSong.song ∧
        s ∈ (detect_song_changes cs existing d).2.2.map UnchangedSong.song)) ∧
    (∀ s : ScrapedSong,
      ¬(s ∈ (detect_song_changes cs existing d).2.1.map TrackedSong.song ∧
        s ∈ (detect_song_changes cs existing d).2.2.map UnchangedSong.song)) := by
  refine ⟨detect_perm existing d cs, ?_, ?_, ?_⟩
  · rintro s ⟨h1, h2⟩
    obtain ⟨e1, he1, hs1⟩ := List.mem_map.mp h1
    obtain ⟨e2, he2, hs2⟩ := List.mem_map.mp h2
    obtain ⟨hn, _⟩ := detect_new_spec existing d cs e1 he1
    obtain ⟨⟨l, hl, _⟩, _⟩ := detect_changed_spec existing d cs e2 he2
    rw [hs1] at hn
    rw [hs2] at hl
    rw [hn] at hl
    exact Option.noConfusion hl
  · rintro s ⟨h1, h2⟩
    obtain ⟨e1, he1, hs1⟩ := List.mem_map.mp h1
    obtain ⟨e2, he2, hs2⟩ := List.mem_map.mp h2
    obtain ⟨hn, _⟩ := detect_new_spec existing d cs e1 he1
    obtain ⟨⟨l, hl, _⟩, _⟩ := detect_unchanged_spec existing d cs e2 he2
    rw [hs1] at hn
    rw [hs2] at hl
    rw [hn] at hl
    exact Option.noConfusion hl
  · rintro s ⟨h1, h2⟩
    obtain ⟨e1, he1, hs1⟩ := List.mem_map.mp h1
    obtain ⟨e2, he2, hs2⟩ := List.mem_map.mp h2
    obtain ⟨⟨l1, hl1, hany1⟩, _⟩ := detect_changed_spec existing d cs e1 he1
    obtain ⟨⟨l2, hl2, hany2⟩, _⟩ := detect_unchanged_spec existing d cs e2 he2
    rw [hs1] at hl1 hany1
    rw [hs2] at hl2 hany2
    rw [hl1] at hl2
    have hll : l1 = l2 := Option.some.inj hl2
    rw [hll] at hany1
    rw [hany1] at hany2
    exact Bool.false_ne_true hany2

/-- Witness for C3: the partition statement applied at a concrete scrape
against a concrete existing map. -/
theorem detect_song_changes_partition_witness :
    ((detect_song_changes [ScrapedSong.mk "t" "p" "A" "ar" none none]
        [(("t", "p"), [ExistingSong.mk "A" "ar" none none 0 0])] 3).1.map
          TrackedSong.song ++
     ((detect_song_changes [ScrapedSong.mk "t" "p" "A" "ar" none none]
        [(("t", "p"), [ExistingSong.mk "A" "ar" none none 0 0])] 3).2.1.map
          TrackedSong.song ++
      (detect_song_changes [ScrapedSong.mk "t" "p" "A" "ar" none none]
        [(("t", "p"), [ExistingSong.mk "A" "ar" none none 0 0])] 3).2.2.map
          UnchangedSong.song)).Perm
      [ScrapedSong.mk "t" "p" "A" "ar" none none] :=
  (detect_song_changes_partition [ScrapedSong.mk "t" "p" "A" "ar" none none]
    [(("t", "p"), [ExistingSong.mk "A" "ar" none none 0 0])] 3).1

/-- Claim C10 (confirmed): a failing read of the current rows is caught by
`get_existing_songs` and yields the empty mapping, and against the empty
mapping the reconciler classifies every scraped entry as new, with
`first_seen_date = last_updated_date = scrape_date` and
`is_current = true`, and with empty changed and unchanged lists. -/
theorem get_existing_songs_failure_all_new (msg : String)
    (cs : List ScrapedSong) (d : Nat) :
    get_existing_songs_safe (Except.error msg) = [] ∧
    detect_song_changes cs (get_existing_songs_safe (Except.error msg)) d =
      (cs.map (fun s => trackedEntry s d), [], []) :=
  ⟨rfl, detect_empty_map d cs⟩

/-- Counterexample to claim C1 as stated: scrape `[A, C]` for a player
whose current rows are A and B. Song A is in the latest scrape for the
player, yet after commit no current row with song A exists, because the
deactivation step for the changed entry C turned off every current row
of the player, including the row of the unchanged song A. -/
theorem store_current_rows_cex :
    (∃ e ∈ [exSongA, exSongC],
        e.team = "t" ∧ e.player = "p" ∧ e.song_name = "A") ∧
    ¬(∃ r ∈ reconcile_and_store [exRowA, exRowB] [exSongA, exSongC]
          (get_existing_songs [exRowA, exRowB]) 1 2,
        r.team = "t" ∧ r.player = "p" ∧ r.is_current = true ∧
        r.song_name = "A") := by
  decide

/-- Claim C1 (amended): after a successful commit, for every
`(team, player)` key having at least one entry classified changed in the
run, the set of rows with `is_current = true` at that key equals exactly
the set of song names of that key's changed entries; in particular, when
a player has both an unchanged song and a changed song in the same run,
the unchanged song loses `is_current` (the deactivation step turns off
all previously current rows of that player), so the current set can be a
strict subset of the latest scrape. -/
theorem store_current_rows_at_changed_key (db : List Row)
    (scrape : List ScrapedSong) (existing : ExistingMap) (d now : Nat)
    (team player : String)
    (hkey : ∃ e ∈ (detect_song_changes scrape existing d).2.1,
        e.song.team = team ∧ e.song.player = player) (s : String) :
    (∃ r ∈ reconcile_and_store db scrape existing d now,
        r.team = team ∧ r.player = player ∧ r.is_current = true ∧
        r.song_name = s) ↔
    (∃ e ∈ (detect_song_changes scrape existing d).2.1,
        e.song.team = team ∧ e.song.player = player ∧
        e.song.song_name = s) := by
  obtain ⟨ek, hek, hekt, hekp⟩ := hkey
  have hstore : reconcile_and_store db scrape existing d now =
      db.map (fun r => updFold (detect_song_changes scrape existing d).2.2 now
        (deactFold (detect_song_changes scrape existing d).2.1 now r)) ++
      (((detect_song_changes scrape existing d).1 ++
        (detect_song_changes scrape existing d).2.1).map
        (fun t => updFold (detect_song_changes scrape existing d).2.2 now
          (trackedToRow t now))) :=
    store_eq_map db _ _ _ now
  constructor
  · rintro ⟨r, hr, h1, h2, h3, h4⟩
    rw [hstore] at hr
    rcases List.mem_append.mp hr with hr | hr
    · exfalso
      obtain ⟨r0, hr0, heq⟩ := List.mem_map.mp hr
      obtain ⟨u1, u2, _, _, _, _, _, u8⟩ :=
        updFold_frame now (detect_song_changes scrape existing d).2.2
          (deactFold (detect_song_changes scrape existing d).2.1 now r0)
      obtain ⟨d1, d2, _⟩ :=
        deactFold_frame now (detect_song_changes scrape existing d).2.1 r0
      have ht : r0.team = team := by
        rw [← d1, ← u1, heq]; exact h1
      have hp : r0.player = player := by
        rw [← d2, ← u2, heq]; exact h2
      have hmem : (r0.team, r0.player) ∈
          (detect_song_changes scrape existing d).2.1.map
            (fun t => (t.song.team, t.song.player)) := by
        refine List.mem_map.mpr ⟨ek, hek, ?_⟩
        rw [hekt, hekp, ht, hp]
      have hfalse :=
        deactFold_mem_false now (detect_song_changes scrape existing d).2.1 r0 hmem
      rw [← heq] at h3
      rw [u8, hfalse] at h3
      exact Bool.false_ne_true h3
    · obtain ⟨t0, ht0, heq⟩ := List.mem_map.mp hr
      obtain ⟨u1, u2, u3, _, _, _, _, u8⟩ :=
        updFold_frame now (detect_song_changes scrape existing d).2.2
          (trackedToRow t0 now)
      have htt : t0.song.team = team := by
        have : (trackedToRow t0 now).team = team := by rw [← u1, heq]; exact h1
        exact this
      have htp : t0.song.player = player := by
        have : (trackedToRow t0 now).player = player := by rw [← u2, heq]; exact h2
        exact this
      have hts : t0.song.song_name = s := by
        have : (trackedToRow t0 now).song_name = s := by rw [← u3, heq]; exact h4
        exact this
      rcases List.mem_append.mp ht0 with ht0 | ht0
      · exfalso
        obtain ⟨hn, _⟩ := detect_new_spec existing d scrape t0 ht0
        obtain ⟨⟨l, hl, _⟩, _⟩ := detect_changed_spec existing d scrape ek hek
        unfold songKey at hn hl
        rw [htt, htp] at hn
        rw [hekt, hekp] at hl
        rw [hn] at hl
        exact Option.noConfusion hl
      · exact ⟨t0, ht0, htt, htp, hts⟩
  · rintro ⟨e, he, he1, he2, he3⟩
    obtain ⟨u1, u2, u3, _, _, _, _, u8⟩ :=
      updFold_frame now (detect_song_changes scrape existing d).2.2
        (trackedToRow e now)
    obtain ⟨_, hee⟩ := detect_changed_spec existing d scrape e he
    refine ⟨updFold (detect_song_changes scrape existing d).2.2 now
      (trackedToRow e now), ?_, ?_, ?_, ?_, ?_⟩
    · rw [hstore]
      refine List.mem_append.mpr (Or.inr ?_)
      exact List.mem_map.mpr ⟨e, List.mem_append.mpr (Or.inr he), rfl⟩
    · rw [u1]; exact he1
    · rw [u2]; exact he2
    · rw [u8]
      show e.is_current = true
      rw [hee]
      rfl
    · rw [u3]; exact he3

/-- Witness for the amended C1: a player with existing current song B is
scraped with song C; the key has a changed entry, and the current rows
after commit are exactly the changed songs. -/
theorem store_current_rows_at_changed_key_witness :
    (∃ r ∈ reconcile_and_store [] [exSongC]
        [(("t", "p"), [ExistingSong.mk "B" "ar" none none 0 0])] 1 2,
        r.team = "t" ∧ r.player = "p" ∧ r.is_current = true ∧
        r.song_name = "C") ↔
    (∃ e ∈ (detect_song_changes [exSongC]
        [(("t", "p"), [ExistingSong.mk "B" "ar" none none 0 0])] 1).2.1,
        e.song.team = "t" ∧ e.song.player = "p" ∧ e.song.song_name = "C") :=
  store_current_rows_at_changed_key [] [exSongC]
    [(("t", "p"), [ExistingSong.mk "B" "ar" none none 0 0])] 1 2 "t" "p"
    (by decide) "C"

/-- Counterexample to claim C9 as stated: player with current row for
song A; the scrape holds the unchanged song A together with the changed
song C. The commit does not only touch `last_updated_date` and
`updated_at` of the row matching `(t, p, A)`: its `is_current` column is
flipped to false by the deactivation step for the changed entry. -/
theorem store_unchanged_update_frame_cex :
    ((reconcile_and_store [exRowA] [exSongA, exSongC]
        (get_existing_songs [exRowA]) 1 2).map
      (fun r => (r.song_name, r.first_seen_date, r.last_updated_date,
                 r.is_current))) =
      [("A", 0, 1, false), ("C", 1, 1, true)] ∧
    exRowA.is_current = true ∧
    ¬(∀ r ∈ reconcile_and_store [exRowA] [exSongA, exSongC]
          (get_existing_songs [exRowA]) 1 2,
        r.song_name = "A" → r.is_current = exRowA.is_current) := by
  decide

/-- Claim C9 (amended): for every pre-existing row, the commit preserves
`team`, `player`, `song_name`, `song_artist`, `spotify_uri`, `explicit`
and `first_seen_date`; when the row matches an unchanged entry its
`last_updated_date` becomes the scrape date and `updated_at` the commit
timestamp, otherwise `last_updated_date` is preserved; `is_current` is
preserved provided the row's `(team, player)` has no changed entry in the
run (when it does, the deactivation step may flip it); and a row matching
no unchanged entry whose player has no changed entry is left entirely
unchanged. -/
theorem store_unchanged_update_frame (db : List Row)
    (scrape : List ScrapedSong) (existing : ExistingMap) (d now : Nat)
    (i : Nat) (r : Row) (hr : db[i]? = some r) :
    ∃ r2 : Row, (reconcile_and_store db scrape existing d now)[i]? = some r2 ∧
      r2.team = r.team ∧ r2.player = r.player ∧ r2.song_name = r.song_name ∧
      r2.song_artist = r.song_artist ∧ r2.spotify_uri = r.spotify_uri ∧
      r2.explicit = r.explicit ∧ r2.first_seen_date = r.first_seen_date ∧
      ((∃ u ∈ (detect_song_changes scrape existing d).2.2,
          r.team = u.song.team ∧ r.player = u.song.player ∧
          r.song_name = u.song.song_name) →
        r2.last_updated_date = d ∧ r2.updated_at = now) ∧
      (¬(∃ u ∈ (detect_song_changes scrape existing d).2.2,
          r.team = u.song.team ∧ r.player = u.song.player ∧
          r.song_name = u.song.song_name) →
        r2.last_updated_date = r.last_updated_date) ∧
      ((r.team, r.player) ∉ (detect_song_changes scrape existing d).2.1.map
          (fun t => (t.song.team, t.song.player)) →
        r2.is_current = r.is_current) ∧
      (¬(∃ u ∈ (detect_song_changes scrape existing d).2.2,
          r.team = u.song.team ∧ r.player = u.song.player ∧
          r.song_name = u.song.song_name) ∧
       (r.team, r.player) ∉ (detect_song_changes scrape existing d).2.1.map
          (fun t => (t.song.team, t.song.player)) →
        r2 = r) := by
  have hi : i < db.length := (List.getElem?_eq_some.mp hr).1
  have hstore : reconcile_and_store db scrape existing d now =
      db.map (fun x => updFold (detect_song_changes scrape existing d).2.2 now
        (deactFold (detect_song_changes scrape existing d).2.1 now x)) ++
      (((detect_song_changes scrape existing d).1 ++
        (detect_song_changes scrape existing d).2.1).map
        (fun t => updFold (detect_song_changes scrape existing d).2.2 now
          (trackedToRow t now))) :=
    store_eq_map db _ _ _ now
  have hget : (reconcile_and_store db scrape existing d now)[i]? =
      some (updFold (detect_song_changes scrape existing d).2.2 now
        (deactFold (detect_song_changes scrape existing d).2.1 now r)) := by
    rw [hstore]
    rw [List.getElem?_append_left (by simpa using hi)]
    rw [List.getElem?_map, hr]
    rfl
  set c := (detect_song_changes scrape existing d).2.1 with hc
  set us := (detect_song_changes scrape existing d).2.2 with hus
  obtain ⟨u1, u2, u3, u4, u5, u6, u7, u8⟩ :=
    updFold_frame now us (deactFold c now r)
  obtain ⟨d1, d2, d3, d4, d5, d6, d7, d8⟩ := deactFold_frame now c r
  refine ⟨updFold us now (deactFold c now r), hget,
    u1.trans d1, u2.trans d2, u3.trans d3, u4.trans d4,
    u5.trans d5, u6.trans d6, u7.trans d7, ?_, ?_, ?_, ?_⟩
  · intro hm
    refine updFold_match now d us (deactFold c now r)
      (fun v hv => ?_) ?_
    · obtain ⟨_, hv2⟩ := detect_unchanged_spec existing d scrape v hv
      rw [hv2]
      rfl
    · obtain ⟨v, hv, e1, e2, e3⟩ := hm
      exact ⟨v, hv, d1.trans e1, d2.trans e2, d3.trans e3⟩
  · intro hm
    have hno : updFold us now (deactFold c now r) = deactFold c now r := by
      refine updFold_no_match now us _ (fun v hv hvm => hm ?_)
      exact ⟨v, hv, d1.symm.trans hvm.1, d2.symm.trans hvm.2.1,
             d3.symm.trans hvm.2.2⟩
    rw [hno]
    exact d8
  · intro hmem
    rw [u8]
    have hid : deactFold c now r = r :=
      deactFold_not_mem now c r hmem
    rw [hid]
  · rintro ⟨hm, hmem⟩
    have hid : deactFold c now r = r :=
      deactFold_not_mem now c r hmem
    have hno : updFold us now (deactFold c now r) = deactFold c now r := by
      rw [hid]
      exact updFold_no_match now us r (fun v hv hvm => hm ⟨v, hv, hvm⟩)
    rw [hno, hid]

/-- Witness for the amended C9: a run whose only scraped entry is the
unchanged song A of the player of the single stored row; the row keeps
`first_seen_date` and `is_current` and gets `last_updated_date = 1`. -/
theorem store_unchanged_update_frame_witness :
    ∃ r2 : Row, (reconcile_and_store [exRowA] [exSongA]
        (get_existing_songs [exRowA]) 1 2)[0]? = some r2 ∧
      r2.first_seen_date = exRowA.first_seen_date ∧
      r2.last_updated_date = 1 ∧ r2.is_current = exRowA.is_current := by
  obtain ⟨r2, hget, _, _, _, _, _, _, h7, h8, _, h10, _⟩ :=
    store_unchanged_update_frame [exRowA] [exSongA]
      (get_existing_songs [exRowA]) 1 2 0 exRowA (by decide)
  exact ⟨r2, hget, h7, (h8 (by decide)).1, h10 (by decide)⟩

/-- Counterexample to claim C4 as stated: when every request fails, the
backoff sleeps performed are 1 second then 2 seconds, not the claimed
`2^(n-1)` seconds (2 then 4) before attempts 2 and 3. -/
theorem fetch_retry_policy_cex :
    (fetch_with_retries (fun _ => false)).sleeps = [1, 2] ∧
    (fetch_with_retries (fun _ => false)).sleeps ≠ [2, 4] := by
  decide

/-- Claim C4 (amended): the page fetch makes between 1 and 3 attempts,
passes a 30-second timeout to every request, and the delay slept before
retried attempt `n` (n ≥ 2) is `2^(n-2)` seconds — 1 second before
attempt 2 and 2 seconds before attempt 3 (the list of sleeps is
`[2^0, 2^1, ...]`, one entry per retried attempt); when all attempts
fail, the team contributes zero records and the remaining teams of the
run are still processed unchanged. -/
theorem fetch_retry_policy (succeeds : Nat → Bool)
    (parsed : List ScrapedSong)
    (pre post : List ((Nat → Bool) × List ScrapedSong)) :
    (1 ≤ (fetch_with_retries succeeds).attempts_made ∧
     (fetch_with_retries succeeds).attempts_made ≤ max_retries) ∧
    (fetch_with_retries succeeds).timeouts =
      List.replicate (fetch_with_retries succeeds).attempts_made requestTimeout ∧
    (fetch_with_retries succeeds).sleeps =
      (List.range ((fetch_with_retries succeeds).attempts_made - 1)).map
        (fun a => 2 ^ a) ∧
    ((fetch_with_retries succeeds).ok = false →
      scrape_team_songs_model succeeds parsed = [] ∧
      scrape_all_teams_model (pre ++ (succeeds, parsed) :: post) =
        scrape_all_teams_model pre ++ scrape_all_teams_model post) := by
  have hteam : (fetch_with_retries succeeds).ok = false →
      scrape_team_songs_model succeeds parsed = [] := by
    intro h
    unfold scrape_team_songs_model
    rw [h]
    rfl
  have hall : (fetch_with_retries succeeds).ok = false →
      scrape_all_teams_model (pre ++ (succeeds, parsed) :: post) =
        scrape_all_teams_model pre ++ scrape_all_teams_model post := by
    intro h
    unfold scrape_all_teams_model
    rw [List.foldl_append]
    show (((succeeds, parsed) :: post).foldl _ (pre.foldl _ [])) = _
    rw [List.foldl_cons]
    have hz : pre.foldl (fun a t => a ++ scrape_team_songs_model t.1 t.2) [] ++
        scrape_team_songs_model succeeds parsed =
        pre.foldl (fun a t => a ++ scrape_team_songs_model t.1 t.2) [] := by
      rw [hteam h, List.append_nil]
    rw [hz, scrape_all_foldl]
  refine ⟨?_, ?_, ?_, fun h => ⟨hteam h, hall h⟩⟩ <;>
    rcases h0 : succeeds 0 with _ | _ <;>
    rcases h1 : succeeds 1 with _ | _ <;>
    rcases h2 : succeeds 2 with _ | _ <;>
    simp [fetch_with_retries, fetchGo, max_retries, requestTimeout, h0, h1, h2,
      List.range_succ, List.replicate]

/-- Witness for the amended C4: with every request failing, three
attempts are made with 30-second timeouts and backoff sleeps of 1 and 2
seconds, the failing team contributes no records, and a run with that
team in the middle equals the concatenation of the other teams. -/
theorem fetch_retry_policy_witness :
    (fetch_with_retries (fun _ => false)).timeouts = [30, 30, 30] ∧
    (fetch_with_retries (fun _ => false)).sleeps = [1, 2] ∧
    scrape_team_songs_model (fun _ => false) [exSongA] = [] ∧
    scrape_all_teams_model [((fun _ => true), [exSongC]),
        ((fun _ => false), [exSongA]), ((fun _ => true), [exSongA])] =
      scrape_all_teams_model [((fun _ => true), [exSongC])] ++
      scrape_all_teams_model [((fun _ => true), [exSongA])] := by
  obtain ⟨_, ht, hs, hfail⟩ :=
    fetch_retry_policy (fun _ => false) [exSongA]
      [((fun _ => true), [exSongC])] [((fun _ => true), [exSongA])]
  obtain ⟨hteam, hall⟩ := hfail (by decide)
  exact ⟨by rw [ht]; decide, by rw [hs]; decide, hteam, hall⟩

theorem contains_append_strings (l1 l2 : List String) (a : String) :
    (l1 ++ l2).contains a = (l1.contains a || l2.contains a) := by
  induction l1 with
  | nil => simp
  | cons x xs ih => simp [List.contains_cons, ih, Bool.or_assoc]

/-- Counterexample to claim C5 as stated: `main` with `--dry-run` among
its arguments still performs the storage writes — here an insert of the
scraped song — because no code consults a `--dry-run` flag. -/
theorem main_dry_run_cex :
    "--dry-run" ∈ ["scraper.py", "id", "secret", "--dry-run"] ∧
    (main_model ["scraper.py", "id", "secret", "--dry-run"] []
        [exSongA] 1 2).map MainResult.statements =
      some [DbStatement.insertRows [trackedToRow (trackedEntry exSongA 1) 2]] ∧
    [DbStatement.insertRows [trackedToRow (trackedEntry exSongA 1) 2]] ≠
      ([] : List DbStatement) := by
  decide

/-- Claim C5 (amended): the entry point recognizes only the optional
`--verbose` flag; `--dry-run` is not consulted — appending it changes
nothing, and on any argument vector passing the usage check the run
performs the storage writes unconditionally. -/
theorem main_no_dry_run_flag (argv : List String) (db : List Row)
    (scraped : List ScrapedSong) (d now : Nat) (h : 3 ≤ argv.length) :
    main_model (argv ++ ["--dry-run"]) db scraped d now =
      main_model argv db scraped d now ∧
    main_model argv db scraped d now =
      some { stored_db :=
               store_songs_with_change_tracking db
                 (detect_song_changes scraped (get_existing_songs db) d).1
                 (detect_song_changes scraped (get_existing_songs db) d).2.1
                 (detect_song_changes scraped (get_existing_songs db) d).2.2 now
             statements :=
               store_statements
                 (detect_song_changes scraped (get_existing_songs db) d).1
                 (detect_song_changes scraped (get_existing_songs db) d).2.1
                 (detect_song_changes scraped (get_existing_songs db) d).2.2 now
             verbose := argv.contains "--verbose" } := by
  have h1 : ¬(argv.length < 3) := by omega
  have h2 : ¬((argv ++ ["--dry-run"]).length < 3) := by
    rw [List.length_append]
    omega
  constructor
  · unfold main_model
    rw [if_neg h1, if_neg h2]
    have hc : (argv ++ ["--dry-run"]).contains "--verbose" =
        argv.contains "--verbose" := by
      rw [contains_append_strings]
      have hd : (["--dry-run"] : List String).contains "--verbose" = false := by
        decide
      rw [hd, Bool.or_false]
    rw [hc]
  · unfold main_model
    rw [if_neg h1]

/-- Witness for the amended C5: a concrete argument vector with
`--dry-run` appended yields exactly the run of the vector without it. -/
theorem main_no_dry_run_flag_witness :
    main_model (["scraper.py", "id", "secret"] ++ ["--dry-run"]) [exRowA]
        [exSongA] 1 2 =
      main_model ["scraper.py", "id", "secret"] [exRowA] [exSongA] 1 2 :=
  (main_no_dry_run_flag ["scraper.py", "id", "secret"] [exRowA] [exSongA] 1 2
    (by decide)).1

theorem insertSizes_append (a b : List DbStatement) :
    insertSizes (a ++ b) = insertSizes a ++ insertSizes b :=
  List.filterMap_append a b _

set_option maxRecDepth 4000 in
/-- Counterexample to claim C6 as stated: a reconciliation batch of 150
new rows is written by one INSERT statement of 150 rows — not chunked
into batches of at most about 100 rows. -/
theorem store_not_chunked_cex :
    insertSizes (store_statements bigNewSongs [] [] 0) = [150] ∧
    ¬(∀ sz ∈ insertSizes (store_statements bigNewSongs [] [] 0), sz ≤ 100) := by
  decide

/-- Claim C6 (amended): the writer issues the whole batch in a single
transaction without chunking — all rows of `new + changed` go in one
INSERT statement regardless of count — and without retry: the commit is
attempted exactly once, a database failure of that attempt fails the run
(the exception is logged and re-raised) and no later attempt is
consulted. -/
theorem store_single_insert_no_retry (n c : List TrackedSong)
    (u : List UnchangedSong) (now : Nat) :
    insertSizes (store_statements n c u now) =
      (if (n ++ c) = [] then [] else [(n ++ c).length]) ∧
    (∀ f : Nat → Bool, f 0 = true →
      store_commit f n c u now = Except.error "storage") ∧
    (∀ f : Nat → Bool, f 0 = false →
      store_commit f n c u now = Except.ok (store_statements n c u now)) := by
  refine ⟨?_, ?_, ?_⟩
  · show insertSizes
      ((c.map (fun t => DbStatement.deactivate t.song.team t.song.player)) ++
       (if (n ++ c) = [] then []
        else [DbStatement.insertRows ((n ++ c).map (fun t => trackedToRow t now))]) ++
       (u.map (fun v =>
         DbStatement.updateLast v.song.team v.song.player v.song.song_name
           v.last_updated_date))) = _
    rw [insertSizes_append, insertSizes_append, insertSizes_map_deactivate,
      insertSizes_map_update, List.append_nil, List.nil_append]
    by_cases hnc : (n ++ c) = []
    · rw [if_pos hnc, if_pos hnc]
      rfl
    · rw [if_neg hnc, if_neg hnc]
      show [((n ++ c).map (fun t => trackedToRow t now)).length] = _
      rw [List.length_map]
  · intro f hf
    unfold store_commit
    rw [hf]
    rfl
  · intro f hf
    unfold store_commit
    rw [hf]
    rfl

/-- Witness for the amended C6: a one-element batch produces a single
INSERT of one row, and a first-attempt failure fails the commit. -/
theorem store_single_insert_no_retry_witness :
    insertSizes (store_statements [trackedEntry exSongA 0] [] [] 5) = [1] ∧
    store_commit (fun _ => true) [trackedEntry exSongA 0] [] [] 5 =
      Except.error "storage" := by
  obtain ⟨h1, h2, _⟩ :=
    store_single_insert_no_retry [trackedEntry exSongA 0] [] [] 5
  exact ⟨by rw [h1]; decide, h2 (fun _ => true) rfl⟩

/-- Counterexample to claim C7 as stated: when the catalog search call
raises, no 200 millisecond sleep is performed — the sleep sits inside the
`try` block after the search, so the exception skips it. -/
theorem spotify_sleep_cex :
    (spotify_lookup true SearchOutcome.apiError "t" "p" "s" "a").api_called
      = true ∧
    (spotify_lookup true SearchOutcome.apiError "t" "p" "s" "a").sleeps_ms
      = [] ∧
    (spotify_lookup true SearchOutcome.apiError "t" "p" "s" "a").sleeps_ms
      ≠ [200] := by
  decide

/-- Claim C7 (amended): the fixed 200 millisecond sleep is performed after
every catalog search call that returns — successfully or with an empty
result set — but it is skipped when the call raises an error; no sleep is
performed when the call itself is skipped. -/
theorem spotify_sleep_policy (sp : Bool) (outcome : SearchOutcome)
    (team player song artist : String) :
    ((spotify_lookup sp outcome team player song artist).api_called = true →
      (outcome ≠ SearchOutcome.apiError →
        (spotify_lookup sp outcome team player song artist).sleeps_ms = [200]) ∧
      (outcome = SearchOutcome.apiError →
        (spotify_lookup sp outcome team player song artist).sleeps_ms = [])) ∧
    ((spotify_lookup sp outcome team player song artist).api_called = false →
      (spotify_lookup sp outcome team player song artist).sleeps_ms = []) := by
  unfold spotify_lookup
  by_cases hguard : sp = true ∧ song ≠ "" ∧ artist ≠ ""
  · rw [if_pos hguard]
    cases outcome <;> simp
  · rw [if_neg hguard]
    simp

/-- Witness for the amended C7: an empty result set still sleeps 200
milliseconds, an erroring call sleeps nothing. -/
theorem spotify_sleep_policy_witness :
    (spotify_lookup true SearchOutcome.noItems "t" "p" "s" "a").sleeps_ms
      = [200] ∧
    (spotify_lookup true SearchOutcome.apiError "t" "p" "s" "a").sleeps_ms
      = [] := by
  refine ⟨((spotify_sleep_policy true SearchOutcome.noItems "t" "p" "s" "a").1
    (by decide)).1 (by decide), ?_⟩
  exact ((spotify_sleep_policy true SearchOutcome.apiError "t" "p" "s" "a").1
    (by decide)).2 rfl

/-- Claim C8 (confirmed): the track matcher is total: with an empty song
or artist name the catalog call is skipped entirely, and on an empty
result set or an API error the record is still produced — carrying the
scraped fields — with `spotify_uri = none` and `explicit = none`. -/
theorem spotify_lookup_soft_failure (sp : Bool) (outcome : SearchOutcome)
    (team player song artist : String) :
    ((song = "" ∨ artist = "") →
      (spotify_lookup sp outcome team player song artist).api_called = false) ∧
    ((outcome = SearchOutcome.noItems ∨ outcome = SearchOutcome.apiError) →
      (spotify_lookup sp outcome team player song artist).record.spotify_uri
        = none ∧
      (spotify_lookup sp outcome team player song artist).record.explicit
        = none) ∧
    (spotify_lookup sp outcome team player song artist).record.team = team ∧
    (spotify_lookup sp outcome team player song artist).record.player = player ∧
    (spotify_lookup sp outcome team player song artist).record.song_name
      = song ∧
    (spotify_lookup sp outcome team player song artist).record.song_artist
      = artist := by
  unfold spotify_lookup
  by_cases hguard : sp = true ∧ song ≠ "" ∧ artist ≠ ""
  · rw [if_pos hguard]
    refine ⟨fun hempty => ?_, ?_⟩
    · rcases hempty with hempty | hempty
      · exact absurd hempty hguard.2.1
      · exact absurd hempty hguard.2.2
    · cases outcome <;> simp
  · rw [if_neg hguard]
    simp

/-- Witness for C8: an empty song name skips the call, and a zero-result
search still yields the record with absent catalog fields. -/
theorem spotify_lookup_soft_failure_witness :
    (spotify_lookup true SearchOutcome.noItems "t" "p" "" "a").api_called
      = false ∧
    (spotify_lookup true SearchOutcome.noItems "t" "p" "s" "a").record.spotify_uri
      = none ∧
    (spotify_lookup true SearchOutcome.noItems "t" "p" "s" "a").record.song_name
      = "s" := by
  refine ⟨(spotify_lookup_soft_failure true SearchOutcome.noItems "t" "p" "" "a").1
    (Or.inl rfl), ?_, ?_⟩
  · exact ((spotify_lookup_soft_failure true SearchOutcome.noItems "t" "p" "s" "a").2.1
      (Or.inl rfl)).1
  · exact (spotify_lookup_soft_failure true SearchOutcome.noItems "t" "p" "s" "a").2.2.2.2.1

end Walkup
